import Mathlib

/-!
Shallow embedding of `src/main.rs` (a "bang" search redirect service).

Rust strings are modelled as `List Char` (their unicode scalar values).
Rust's byte-indexed `str` slicing is modelled by `dropBytes` / `takeBytes` /
`byteSlice`, which return `none` exactly when the Rust slice would panic
(index out of range, start past end, or not on a UTF-8 char boundary).
A Rust function that can panic is embedded with result type `Option _`,
`none` standing for the panic.

The ambient SSID lookup (`get_ssid`, which shells out to `iwgetid`) is
modelled as an explicit `Option (List Char)` input threaded to `base_engine`
and `get_engine`.
-/

/-- Embeds `struct SearchEngine { search_url, suggest_url }`. -/
structure SearchEngine where
  search_url : List Char
  suggest_url : List Char
deriving DecidableEq, Repr

/-- Embeds the `GOOGLE` constant. -/
def GOOGLE : SearchEngine :=
  { search_url := "https://www.google.com/search?hl=en&q={searchTerms}".toList,
    suggest_url := "https://www.google.com/complete/search?hl=en&client=firefox&q={searchTerms}".toList }

/-- Embeds `DEFAULT_SUGGEST`. -/
def DEFAULT_SUGGEST : List Char :=
  "https://duckduckgo.com/ac/?q={searchTerms}&type=list".toList

/-- Embeds the `DUCKDUCKGO` constant. -/
def DUCKDUCKGO : SearchEngine :=
  { search_url := "https://duckduckgo.com/?q={searchTerms}".toList,
    suggest_url := "https://duckduckgo.com/ac/?q={searchTerms}&type=list".toList }

/-- Embeds the `WIKIPEDIA` constant. -/
def WIKIPEDIA : SearchEngine :=
  { search_url := "https://en.wikipedia.org/w/index.php?title=Special:Search&search={searchTerms}".toList,
    suggest_url := "https://en.wikipedia.org/w/api.php?action=opensearch&search={searchTerms}&namespace=0".toList }

/-- Embeds the `NWS` constant. -/
def NWS : SearchEngine :=
  { search_url := "https://forecast.weather.gov/zipcity.php?inputstring={searchTerms}".toList,
    suggest_url := DEFAULT_SUGGEST }

/-- Embeds the `CPP` constant. -/
def CPP : SearchEngine :=
  { search_url := "https://en.cppreference.com/mwiki/index.php?search={searchTerms}".toList,
    suggest_url := DEFAULT_SUGGEST }

/-- Embeds the `RUST` constant. -/
def RUST : SearchEngine :=
  { search_url := "https://doc.rust-lang.org/std/?search={searchTerms}".toList,
    suggest_url := DEFAULT_SUGGEST }

/-- Embeds the `CRATES` constant. -/
def CRATES : SearchEngine :=
  { search_url := "https://crates.io/search?q={searchTerms}".toList,
    suggest_url := DEFAULT_SUGGEST }

/-- Embeds the `SEARCH_ENGINES` map contents (keys are distinct, so the
`HashMap` behaves as this association list). -/
def SEARCH_ENGINES : List (List Char × SearchEngine) :=
  [("g".toList, GOOGLE),
   ("ddg".toList, DUCKDUCKGO),
   ("w".toList, WIKIPEDIA),
   ("nws".toList, NWS),
   ("cpp".toList, CPP),
   ("rust".toList, RUST),
   ("crates".toList, CRATES)]

/-- Embeds `SEARCH_ENGINES.get(bang)`: exact-key association-list lookup. -/
def lookupBang : List (List Char × SearchEngine) → List Char → Option SearchEngine
  | [], _ => none
  | (k, v) :: rest, bang => if bang = k then some v else lookupBang rest bang

/-- Embeds Rust `char::is_whitespace` (the Unicode White_Space property). -/
def rustIsWhitespace (c : Char) : Bool :=
  let n := c.toNat
  (0x09 ≤ n ∧ n ≤ 0x0D) ∨ n = 0x20 ∨ n = 0x85 ∨ n = 0xA0 ∨ n = 0x1680 ∨
  (0x2000 ≤ n ∧ n ≤ 0x200A) ∨ n = 0x2028 ∨ n = 0x2029 ∨ n = 0x202F ∨
  n = 0x205F ∨ n = 0x3000

/-- Embeds the scan loop of `get_engine`: `index` is incremented once per
char and the loop breaks after the first whitespace char, so the result is
the 1-based position of the first whitespace char, or the total char count
if there is none. -/
def scanIndex : List Char → Nat
  | [] => 0
  | c :: rest => if rustIsWhitespace c then 1 else 1 + scanIndex rest

/-- Byte length of a Rust string (`str::len`). -/
def utf8Len : List Char → Nat
  | [] => 0
  | c :: rest => c.utf8Size + utf8Len rest

/-- Drop `n` leading UTF-8 bytes (`&s[n..]`); `none` when Rust would panic
(`n` past the end or not on a char boundary). -/
def dropBytes : List Char → Nat → Option (List Char)
  | s, 0 => some s
  | [], _ + 1 => none
  | c :: rest, n + 1 =>
    if c.utf8Size ≤ n + 1 then dropBytes rest (n + 1 - c.utf8Size) else none

/-- Take `n` leading UTF-8 bytes (`&s[..n]`); `none` when Rust would panic. -/
def takeBytes : List Char → Nat → Option (List Char)
  | _, 0 => some []
  | [], _ + 1 => none
  | c :: rest, n + 1 =>
    if c.utf8Size ≤ n + 1 then (takeBytes rest (n + 1 - c.utf8Size)).map (c :: ·) else none

/-- Byte-range slice `&s[a..b]`; `none` when Rust would panic (start past
end, range past the end, or an endpoint inside a multi-byte char). -/
def byteSlice (s : List Char) (a b : Nat) : Option (List Char) :=
  if a ≤ b then (dropBytes s a).bind (fun t => takeBytes t (b - a)) else none

/-- Embeds Rust `str::contains` (substring containment), used by
`base_engine` on the SSID. -/
def containsSub (needle : List Char) : List Char → Bool
  | [] => needle.isPrefixOf []
  | c :: t => needle.isPrefixOf (c :: t) || containsSub needle t

/-- Embeds `base_engine`, with the result of `get_ssid()` passed in as
`ssid`: `None` means the SSID lookup failed, and is absorbed here. -/
def base_engine (ssid : Option (List Char)) : SearchEngine :=
  match ssid with
  | none => DUCKDUCKGO
  | some s => if containsSub "BVSD".toList s then GOOGLE else DUCKDUCKGO

/-- Embeds `get_bang_suggester`. -/
def get_bang_suggester : Option SearchEngine :=
  some DUCKDUCKGO

/-- Embeds `get_engine`. The guard is
`query.len() >= 1 && query.chars().nth(0) == Some('!')`; the keyword slice
is `&query[1..index-1]` with `index` the char-count from the scan loop used
as a byte index; the remainder slice is `&query[bang.len()+2..]`. A `none`
result models a panic of the Rust function (possible in either slice). -/
def get_engine (ssid : Option (List Char)) (query : List Char) :
    Option (SearchEngine × List Char) :=
  if 1 ≤ utf8Len query ∧ query.head? = some '!' then
    match byteSlice query 1 (scanIndex query - 1) with
    | none => none
    | some bang =>
      match lookupBang SEARCH_ENGINES bang with
      | some engine =>
        if utf8Len bang + 2 ≤ utf8Len query then
          match dropBytes query (utf8Len bang + 2) with
          | none => none
          | some rest => some (engine, rest)
        else some (base_engine ssid, query)
      | none => some (base_engine ssid, query)
  else some (base_engine ssid, query)

/-- The UTF-8 bytes of one unicode scalar value. -/
def utf8Bytes (c : Char) : List Nat :=
  let n := c.toNat
  if n < 0x80 then [n]
  else if n < 0x800 then
    [0xC0 + n / 0x40, 0x80 + n % 0x40]
  else if n < 0x10000 then
    [0xE0 + n / 0x1000, 0x80 + (n / 0x40) % 0x40, 0x80 + n % 0x40]
  else
    [0xF0 + n / 0x40000, 0x80 + (n / 0x1000) % 0x40, 0x80 + (n / 0x40) % 0x40, 0x80 + n % 0x40]

/-- Bytes the `urlencoding` crate leaves unencoded: ASCII alphanumerics and
`-`, `.`, `_`, `~`. -/
def isUrlSafeByte (b : Nat) : Bool :=
  (0x30 ≤ b ∧ b ≤ 0x39) ∨ (0x41 ≤ b ∧ b ≤ 0x5A) ∨ (0x61 ≤ b ∧ b ≤ 0x7A) ∨
  b = 0x2D ∨ b = 0x2E ∨ b = 0x5F ∨ b = 0x7E

/-- Uppercase hex digit for a nibble. -/
def hexUpper (n : Nat) : Char :=
  if n < 10 then Char.ofNat (0x30 + n) else Char.ofNat (0x37 + n)

/-- Percent-encode one byte, or keep it verbatim when it is safe. -/
def encodeByte (b : Nat) : List Char :=
  if isUrlSafeByte b then [Char.ofNat b] else ['%', hexUpper (b / 16), hexUpper (b % 16)]

/-- Embeds `urlencoding::encode`: percent-encodes every UTF-8 byte of the
input except alphanumerics and `-`, `.`, `_`, `~`. -/
def encode (q : List Char) : List Char :=
  ((q.map utf8Bytes).flatten.map encodeByte).flatten

/-- The `"\x7bsearchTerms\x7d"` placeholder pattern, as a char list. -/
def stPat : List Char := "{searchTerms}".toList

/-- Helper for `replaceST`: the fuel argument only forces structural
termination; the list shortens by at least one char per step, so starting
the fuel at the list length never exhausts it. -/
def replaceSTAux (repl : List Char) : Nat → List Char → List Char
  | _, [] => []
  | 0, l => l
  | fuel + 1, c :: rest =>
    if stPat.isPrefixOf (c :: rest) then repl ++ replaceSTAux repl fuel (rest.drop 12)
    else c :: replaceSTAux repl fuel rest

/-- Embeds `str::replace` specialised to the 13-byte placeholder pattern:
replaces every non-overlapping occurrence, scanning left to right. -/
def replaceST (repl l : List Char) : List Char :=
  replaceSTAux repl l.length l

/-- Embeds `format_url`: `format.replace("\x7bsearchTerms\x7d", &encode(q))`. -/
def format_url (q fmt : List Char) : List Char :=
  replaceST (encode q) fmt

/-- Embeds the `suggest` request handler (the part after query extraction):
resolve the engine, swap in the bang suggester when the query was rewritten,
and format the suggestion URL from the original query. `none` models a
panic propagated from `get_engine`. -/
def suggest (ssid : Option (List Char)) (q : List Char) : Option (List Char) :=
  match get_engine ssid q with
  | none => none
  | some (engine, new_query) =>
    let engine2 := if new_query ≠ q then
        match get_bang_suggester with
        | some e => e
        | none => engine
      else engine
    some (format_url q engine2.suggest_url)

/-- Embeds the `search` request handler (the part after query extraction). -/
def search (ssid : Option (List Char)) (q : List Char) : Option (List Char) :=
  match get_engine ssid q with
  | none => none
  | some (engine, new_query) => some (format_url new_query engine.search_url)

/-! ## Helper lemmas about the byte-level string model -/

lemma dropBytes_zero (s : List Char) : dropBytes s 0 = some s := by cases s <;> rfl

lemma takeBytes_zero (s : List Char) : takeBytes s 0 = some [] := by cases s <;> rfl

lemma utf8Len_append (a b : List Char) : utf8Len (a ++ b) = utf8Len a + utf8Len b := by
  induction a with
  | nil => simp [utf8Len]
  | cons c t ih => simp [utf8Len, ih]; omega

lemma utf8Len_ascii (b : List Char) (hsz : ∀ c ∈ b, c.utf8Size = 1) :
    utf8Len b = b.length := by
  induction b with
  | nil => rfl
  | cons c t ih =>
    have hc := hsz c (List.mem_cons_self c t)
    have ht : ∀ x ∈ t, x.utf8Size = 1 := fun x hx => hsz x (List.mem_cons_of_mem c hx)
    simp [utf8Len, hc, ih ht]
    omega

lemma one_le_utf8Len_cons (c : Char) (l : List Char) : 1 ≤ utf8Len (c :: l) := by
  have := Char.utf8Size_pos c
  simp [utf8Len]
  omega

lemma dropBytes_ascii (b : List Char) (hsz : ∀ c ∈ b, c.utf8Size = 1)
    (t : List Char) (n : Nat) : dropBytes (b ++ t) (b.length + n) = dropBytes t n := by
  induction b with
  | nil => simp
  | cons c bt ih =>
    have hc : c.utf8Size = 1 := hsz c (List.mem_cons_self c bt)
    have hbt : ∀ x ∈ bt, x.utf8Size = 1 := fun x hx => hsz x (List.mem_cons_of_mem c hx)
    show dropBytes (c :: (bt ++ t)) (bt.length + 1 + n) = dropBytes t n
    have h2 : bt.length + 1 + n = (bt.length + n) + 1 := by omega
    rw [h2]
    simp only [dropBytes]
    rw [hc, if_pos (by omega)]
    have h3 : bt.length + n + 1 - 1 = bt.length + n := by omega
    rw [h3]
    exact ih hbt

lemma dropBytes_ascii_eq (b : List Char) (hsz : ∀ c ∈ b, c.utf8Size = 1)
    (t : List Char) (m n : Nat) (hm : m = b.length + n) :
    dropBytes (b ++ t) m = dropBytes t n := by
  rw [hm]
  exact dropBytes_ascii b hsz t n

lemma takeBytes_ascii (b : List Char) (hsz : ∀ c ∈ b, c.utf8Size = 1) (t : List Char) :
    takeBytes (b ++ t) b.length = some b := by
  induction b with
  | nil => simp [takeBytes_zero]
  | cons c bt ih =>
    have hc : c.utf8Size = 1 := hsz c (List.mem_cons_self c bt)
    have hbt : ∀ x ∈ bt, x.utf8Size = 1 := fun x hx => hsz x (List.mem_cons_of_mem c hx)
    show takeBytes (c :: (bt ++ t)) (bt.length + 1) = some (c :: bt)
    simp only [takeBytes]
    rw [hc, if_pos (by omega)]
    have h1 : bt.length + 1 - 1 = bt.length := by omega
    rw [h1, ih hbt]
    rfl

lemma scanIndex_no_ws (b : List Char) (hws : ∀ c ∈ b, rustIsWhitespace c = false)
    (r : List Char) : scanIndex (b ++ ' ' :: r) = b.length + 1 := by
  induction b with
  | nil =>
    have h : rustIsWhitespace ' ' = true := by decide
    simp [scanIndex, h]
  | cons c t ih =>
    have hc : rustIsWhitespace c = false := hws c (List.mem_cons_self c t)
    have ht : ∀ x ∈ t, rustIsWhitespace x = false := fun x hx => hws x (List.mem_cons_of_mem c hx)
    simp [scanIndex, hc, ih ht]
    omega

/-- Every registered bang keyword is whitespace-free and consists of
single-byte (ASCII) characters. -/
lemma registered_bang_props (b : List Char) (e : SearchEngine)
    (hb : lookupBang SEARCH_ENGINES b = some e) :
    (∀ c ∈ b, rustIsWhitespace c = false) ∧ (∀ c ∈ b, c.utf8Size = 1) := by
  simp only [SEARCH_ENGINES, lookupBang] at hb
  split_ifs at hb <;> first
    | exact Option.noConfusion hb
    | (subst_vars; exact ⟨by decide, by decide⟩)

/-- Core lemma: for a registered keyword `b` of single-byte whitespace-free
chars followed by a space, `get_engine` strips the bang and returns the
remainder. -/
lemma get_engine_bang_strip (ssid : Option (List Char)) (b : List Char) (e : SearchEngine)
    (hb : lookupBang SEARCH_ENGINES b = some e)
    (hws : ∀ c ∈ b, rustIsWhitespace c = false)
    (hsz : ∀ c ∈ b, c.utf8Size = 1) (r : List Char) :
    get_engine ssid ('!' :: (b ++ ' ' :: r)) = some (e, r) := by
  have hsz1 : utf8Len b = b.length := utf8Len_ascii b hsz
  have hbsz : ('!').utf8Size = 1 := by decide
  have hssz : (' ').utf8Size = 1 := by decide
  have hlen : utf8Len ('!' :: (b ++ ' ' :: r)) = b.length + 2 + utf8Len r := by
    simp only [utf8Len, utf8Len_append, hbsz, hssz, hsz1]
    omega
  have hscan : scanIndex ('!' :: (b ++ ' ' :: r)) = b.length + 2 := by
    have hbang : rustIsWhitespace '!' = false := by decide
    simp only [scanIndex, hbang, Bool.false_eq_true, if_false, scanIndex_no_ws b hws r]
    omega
  have hslice : byteSlice ('!' :: (b ++ ' ' :: r)) 1 (b.length + 2 - 1) = some b := by
    have h1 : b.length + 2 - 1 = b.length + 1 := by omega
    rw [h1]
    unfold byteSlice
    rw [if_pos (by omega)]
    have hd1 : dropBytes ('!' :: (b ++ ' ' :: r)) 1 = some (b ++ ' ' :: r) := by
      have := dropBytes_ascii_eq ['!'] (by decide) (b ++ ' ' :: r) 1 0 (by simp)
      simpa [dropBytes] using this
    rw [hd1]
    have h2 : b.length + 1 - 1 = b.length := by omega
    simp only [Option.bind_some, h2]
    exact takeBytes_ascii b hsz (' ' :: r)
  have hdrop : dropBytes ('!' :: (b ++ ' ' :: r)) (b.length + 2) = some r := by
    have hsz2 : ∀ c ∈ ('!' :: (b ++ [' '])), c.utf8Size = 1 := by
      intro c hc
      rcases List.mem_cons.mp hc with h | h
      · subst h; decide
      · rcases List.mem_append.mp h with h | h
        · exact hsz c h
        · simp at h; subst h; decide
    have hlist : ('!' :: (b ++ ' ' :: r)) = ('!' :: (b ++ [' '])) ++ r := by simp
    rw [hlist]
    rw [dropBytes_ascii_eq _ hsz2 r _ 0 (by simp)]
    exact dropBytes_zero r
  unfold get_engine
  rw [if_pos ⟨by rw [hlen]; omega, rfl⟩]
  simp only [hscan, hslice, hb, hsz1, hlen]
  rw [if_pos (by omega)]
  simp only [hdrop]

lemma replaceSTAux_no_occur (repl : List Char) (fuel : Nat) :
    ∀ l : List Char, containsSub stPat l = false → replaceSTAux repl fuel l = l := by
  induction fuel with
  | zero => intro l h; cases l <;> rfl
  | succ n ih =>
    intro l h
    cases l with
    | nil => rfl
    | cons c t =>
      simp only [containsSub, Bool.or_eq_false_iff] at h
      simp only [replaceSTAux]
      rw [if_neg (by simp [h.1])]
      rw [ih t h.2]

/-! ## Claims -/

/-- C1: The claim states that every whitespace-free query starting with '!'
(e.g. "!g", "!gg", "!xx", "!rustx") resolves to the default engine with the
whole original query as remainder, the bang never being stripped. The code
does not satisfy this: with no whitespace, the scan index ends at the char
count, so the keyword slice `query[1..index-1]` drops the final character.
Hence "!gg" yields keyword "g", which is registered, and the remainder
check passes vacuously, returning (GOOGLE, "") with the bang stripped;
likewise "!rustx" returns (RUST, ""). This evaluates the embedded code at
those failing inputs, for any ambient SSID. -/
theorem c1_bang_no_ws_keyword_drops_last_char (ssid : Option (List Char)) :
    get_engine ssid "!gg".toList = some (GOOGLE, []) ∧
    get_engine ssid "!rustx".toList = some (RUST, []) :=
  ⟨rfl, rfl⟩

/-- C2: The claim states that get_engine is total over all strings,
including the one-character query "!" and queries with multi-byte chars
before the first whitespace. The code is not: on "!" it slices
`&query[1..0]` (start past end), and on "!aé b" the keyword slice ends at
byte 3, inside the two-byte char 'é'; both are Rust panics, modelled here
as a `none` result, for any ambient SSID. -/
theorem c2_get_engine_panics (ssid : Option (List Char)) :
    get_engine ssid "!".toList = none ∧
    get_engine ssid "!aé b".toList = none :=
  ⟨rfl, rfl⟩

/-- C3: for every registered bang keyword b and every non-empty string r,
get_engine applied to "!" + b + " " + r returns the engine registered for b
together with remainder exactly r, regardless of the ambient SSID. -/
theorem c3_registered_bang_strip (ssid : Option (List Char)) (b : List Char)
    (e : SearchEngine) (hb : lookupBang SEARCH_ENGINES b = some e)
    (r : List Char) (_hr : r ≠ []) :
    get_engine ssid ("!".toList ++ b ++ " ".toList ++ r) = some (e, r) := by
  obtain ⟨hws, hsz⟩ := registered_bang_props b e hb
  have h : "!".toList ++ b ++ " ".toList ++ r = '!' :: (b ++ ' ' :: r) := by
    show ['!'] ++ b ++ [' '] ++ r = '!' :: (b ++ ' ' :: r)
    simp
  rw [h]
  exact get_engine_bang_strip ssid b e hb hws hsz r

/-- Witness for C3 at b = "g", r = "x". -/
theorem c3_registered_bang_strip_witness :
    get_engine none ("!".toList ++ "g".toList ++ " ".toList ++ "x".toList) =
      some (GOOGLE, "x".toList) :=
  c3_registered_bang_strip none "g".toList GOOGLE (by decide) "x".toList (by decide)

/-- C4: The claim states that for every whitespace-free unregistered
keyword x and trailing text r, get_engine on "!" + x + " " + r returns the
default engine with the full original string. The code does not satisfy
this for multi-byte keywords: on "!é a" the scan counts 3 chars, so the
keyword slice is `&query[1..2]`, and byte 2 lies inside the two-byte char
'é' — a Rust panic, modelled as `none`, for any ambient SSID. -/
theorem c4_unknown_bang_multibyte_panics (ssid : Option (List Char)) :
    get_engine ssid "!é a".toList = none :=
  rfl

/-- C5: for every query q that does not start with '!' (including the empty
query), get_engine returns the default engine with q unchanged. -/
theorem c5_no_bang_passthrough (ssid : Option (List Char)) (q : List Char)
    (hq : q.head? ≠ some '!') :
    get_engine ssid q = some (base_engine ssid, q) := by
  unfold get_engine
  rw [if_neg (fun h => hq h.2)]

/-- Witness for C5 at q = "hello". -/
theorem c5_no_bang_passthrough_witness :
    ("hello".toList.head? ≠ some '!') ∧
    get_engine none "hello".toList = some (base_engine none, "hello".toList) :=
  ⟨by decide, c5_no_bang_passthrough none "hello".toList (by decide)⟩

/-- C6: base_engine, with the SSID lookup modelled as an optional string
input, returns DuckDuckGo when the SSID is unavailable, Google when the
SSID contains the substring "BVSD", and DuckDuckGo for every other SSID;
the lookup failure is absorbed, never surfaced. -/
theorem c6_base_engine_ssid :
    base_engine none = DUCKDUCKGO ∧
    (∀ s : List Char, containsSub "BVSD".toList s = true → base_engine (some s) = GOOGLE) ∧
    (∀ s : List Char, containsSub "BVSD".toList s = false → base_engine (some s) = DUCKDUCKGO) := by
  refine ⟨rfl, fun s h => ?_, fun s h => ?_⟩ <;>
    · show (if containsSub "BVSD".toList s then GOOGLE else DUCKDUCKGO) = _
      rw [h]
      rfl

/-- Witness for C6 at SSID values "xBVSDy" and "homewifi". -/
theorem c6_base_engine_ssid_witness :
    base_engine (some "xBVSDy".toList) = GOOGLE ∧
    base_engine (some "homewifi".toList) = DUCKDUCKGO :=
  ⟨c6_base_engine_ssid.2.1 _ (by decide), c6_base_engine_ssid.2.2 _ (by decide)⟩

/-- C7: in suggest handling, whenever get_engine rewrites the query
(remainder differs from q), the engine is replaced by the bang suggester,
which is unconditionally DuckDuckGo, and the suggestion URL is formatted
from the unmodified original query q, not from the remainder. -/
theorem c7_suggest_uses_bang_suggester_and_original_query
    (ssid : Option (List Char)) (q : List Char) (e : SearchEngine) (rem : List Char)
    (h : get_engine ssid q = some (e, rem)) (hne : rem ≠ q) :
    get_bang_suggester = some DUCKDUCKGO ∧
    suggest ssid q = some (format_url q DUCKDUCKGO.suggest_url) := by
  refine ⟨rfl, ?_⟩
  unfold suggest
  simp only [h]
  simp [hne, get_bang_suggester]

/-- Witness for C7 at q = "!g x". -/
theorem c7_suggest_witness :
    get_engine none "!g x".toList = some (GOOGLE, "x".toList) ∧
    suggest none "!g x".toList = some (format_url "!g x".toList DUCKDUCKGO.suggest_url) :=
  ⟨by decide,
   (c7_suggest_uses_bang_suggester_and_original_query none "!g x".toList GOOGLE
     "x".toList (by decide) (by decide)).2⟩

/-- C8: format_url is total and fails silently-safe: for every query q and
every template containing no occurrence of the placeholder pattern, it
returns the template unchanged. -/
theorem c8_format_url_no_placeholder (q template : List Char)
    (h : containsSub stPat template = false) :
    format_url q template = template := by
  unfold format_url replaceST
  exact replaceSTAux_no_occur (encode q) template.length template h

/-- Witness for C8 at a placeholder-free template. -/
theorem c8_format_url_no_placeholder_witness :
    containsSub stPat "https://example.com/?q=plain".toList = false ∧
    format_url "c++ vector".toList "https://example.com/?q=plain".toList =
      "https://example.com/?q=plain".toList :=
  ⟨by decide, c8_format_url_no_placeholder _ _ (by decide)⟩

/-- C9: format_url percent-encodes the query before substitution:
"c++ vector" in template "https://x/?q=" + placeholder gives
"https://x/?q=c%2B%2B%20vector"; and encoding is single-pass, so applying
it to the already-encoded "c%2B%2B%20vector" re-encodes the percent signs
rather than round-tripping. -/
theorem c9_format_url_percent_encoding :
    format_url "c++ vector".toList "https://x/?q={searchTerms}".toList =
      "https://x/?q=c%2B%2B%20vector".toList ∧
    format_url "c%2B%2B%20vector".toList "https://x/?q={searchTerms}".toList =
      "https://x/?q=c%252B%252B%2520vector".toList :=
  ⟨by decide, by decide⟩

/-- C10: whenever the bang match fully succeeds (get_engine returns a
remainder different from the query), the result is independent of the
ambient SSID: any other SSID value gives the same (engine, remainder). -/
theorem c10_bang_result_ssid_independent (ssid1 ssid2 : Option (List Char))
    (q : List Char) (e : SearchEngine) (rem : List Char)
    (h : get_engine ssid1 q = some (e, rem)) (hne : rem ≠ q) :
    get_engine ssid2 q = some (e, rem) := by
  unfold get_engine at h ⊢
  by_cases hc : 1 ≤ utf8Len q ∧ q.head? = some '!'
  · rw [if_pos hc] at h ⊢
    cases hsl : byteSlice q 1 (scanIndex q - 1) with
    | none =>
      rw [hsl] at h
      exact Option.noConfusion h
    | some bang =>
      simp only [hsl] at h ⊢
      cases hlk : lookupBang SEARCH_ENGINES bang with
      | none =>
        simp only [hlk, Option.some.injEq, Prod.mk.injEq] at h
        exact absurd h.2.symm hne
      | some eng =>
        simp only [hlk] at h ⊢
        by_cases hl : utf8Len bang + 2 ≤ utf8Len q
        · rw [if_pos hl] at h ⊢
          cases hd : dropBytes q (utf8Len bang + 2) with
          | none =>
            rw [hd] at h
            exact Option.noConfusion h
          | some rest =>
            rw [hd] at h
            exact h
        · rw [if_neg hl] at h
          simp only [Option.some.injEq, Prod.mk.injEq] at h
          exact absurd h.2.symm hne
  · rw [if_neg hc] at h
    simp only [Option.some.injEq, Prod.mk.injEq] at h
    exact absurd h.2.symm hne

/-- Witness for C10 at q = "!w cats", SSIDs none and "xxBVSDxx". -/
theorem c10_bang_result_ssid_independent_witness :
    get_engine none "!w cats".toList = some (WIKIPEDIA, "cats".toList) ∧
    get_engine (some "xxBVSDxx".toList) "!w cats".toList = some (WIKIPEDIA, "cats".toList) :=
  ⟨by decide,
   c10_bang_result_ssid_independent none (some "xxBVSDxx".toList) "!w cats".toList
     WIKIPEDIA "cats".toList (by decide) (by decide)⟩
